import Mathlib

/-!
Shallow embedding of the revenue ledger and payout pipeline of the
ai-business-system repository, covering:

  src/payment_engine/payout_agent.py        (class PayoutAgent)
  src/payment_engine/payment_processor.py   (class PaymentProcessor)
  src/src/financial_engine/auto_funding.py  (class AutoFundingEngine)

Monetary values are Python Decimal values; all amounts and percentages in
these files are exact decimal fractions well within Decimal's default
28-digit precision, so they are modelled as exact rationals.

The database is modelled as in-memory lists of rows, one list per table,
with the column set taken from the repository's CREATE TABLE statements
(src/data/SQL/sql.py and src/app.py) plus the columns the INSERT
statements write.  Committed-state changes are the only observable state
changes; a statement that raises inside a swallowed try/except leaves the
table list unchanged.
-/

/-- Python substring test performed character by character: the helper for
the expression needle in hay used by PayoutAgent._execute_payouts. -/
def hasPrefixChars : List Char → List Char → Bool
  | _, [] => true
  | [], _ :: _ => false
  | h :: t, n :: m => h = n && hasPrefixChars t m

/-- needle occurs as a contiguous substring of hay (Python in operator). -/
def hasSubChars : List Char → List Char → Bool
  | [], needle => needle.isEmpty
  | h :: t, needle => hasPrefixChars (h :: t) needle || hasSubChars t needle

/-- Python needle in hay on strings. -/
def strIn (needle hay : String) : Bool :=
  hasSubChars hay.data needle.data

namespace PayoutAgent

/-- A bank-account record as returned by PayoutAgent._load_encrypted_account
(payout_agent.py lines 31-54).  An unknown account type yields the empty
dict, modelled as the all-empty record, matching accounts.get(t, empty). -/
structure Account where
  accountName : String
  accountNumber : String
  branchCode : String
deriving Repr, DecidableEq

/-- payout_agent.py lines 34-54: the hard-coded encrypted account table. -/
def loadEncryptedAccount : String → Account
  | "owner_fnb" =>
      ⟨"Owner Personal Account", "encrypted_account_001", "250655"⟩
  | "ai_fund_rnb" =>
      ⟨"CostByte AI Development Fund", "encrypted_account_002", "198765"⟩
  | "reserve_fnb" =>
      ⟨"CostByte Business Reserve", "encrypted_account_003", "250655"⟩
  | _ => ⟨"", "", ""⟩

/-- payout_agent.py lines 24-28: allocation_rules of payout_config, an
insertion-ordered dict category -> Decimal percentage. -/
def allocationRules : List (String × ℚ) :=
  [("owner", 60/100), ("ai_fund", 20/100), ("reserve", 20/100)]

/-- payout_agent.py line 23: minimum_payout = Decimal 1000.00. -/
def minimumPayout : ℚ := 1000

/-- payout_agent.py lines 134-141: account_map.get(category, empty). -/
def getDestinationAccount : String → Account
  | "owner" => loadEncryptedAccount "owner_fnb"
  | "ai_fund" => loadEncryptedAccount "ai_fund_rnb"
  | "reserve" => loadEncryptedAccount "reserve_fnb"
  | _ => ⟨"", "", ""⟩

/-- One entry of the allocations dict built by _calculate_allocations:
amount, percentage (stored as float(percentage) * 100) and the destination
account. -/
structure Allocation where
  amount : ℚ
  percentage : ℚ
  account : Account
deriving Repr, DecidableEq

/-- payout_agent.py lines 119-132, PayoutAgent._calculate_allocations:
for each configured category, amount = total_revenue * percentage with NO
rounding of any kind; the dict preserves the rule order. -/
def calculateAllocations (totalRevenue : ℚ) : List (String × Allocation) :=
  allocationRules.map (fun cp =>
    (cp.1, ⟨totalRevenue * cp.2, cp.2 * 100, getDestinationAccount cp.1⟩))

/-- Result dict of FNBClient.transfer_funds / RNBClient.transfer_funds and
of the per-category failure path of _execute_payouts. -/
structure TransferResult where
  success : Bool
  reference : Option String
  error : Option String
deriving Repr, DecidableEq

/-- fnb_client.py lines 22-57: the simulated transfer always succeeds and
returns a generated reference (its timestamp payload is abstracted to the
fixed PYT tag, which no caller inspects beyond storing it). -/
def fnbTransferFunds (_amount : ℚ) : TransferResult :=
  ⟨true, some "PYT", none⟩

/-- rnb_client.py lines 19-48: likewise always succeeds. -/
def rnbTransferFunds (_amount : ℚ) : TransferResult :=
  ⟨true, some "AIF", none⟩

/-- payout_agent.py lines 147-177: the body of _execute_payouts for one
category.  The routing inspects the account number for the substrings fnb
and rnb; any other account number yields the Unknown bank failure dict.
The surrounding try/except never fires because both bank clients swallow
their own exceptions. -/
def executeCategory (_category : String) (a : Allocation) : TransferResult :=
  if strIn "fnb" a.account.accountNumber then fnbTransferFunds a.amount
  else if strIn "rnb" a.account.accountNumber then rnbTransferFunds a.amount
  else ⟨false, none, some "Unknown bank"⟩

/-- payout_agent.py lines 143-179, PayoutAgent._execute_payouts: one result
per category, each computed independently from that category's allocation
alone. -/
def executePayouts (allocs : List (String × Allocation)) :
    List (String × TransferResult) :=
  allocs.map (fun ca => (ca.1, executeCategory ca.1 ca.2))

/-- One row of the client_payments table (src/app.py lines 92-105 plus the
columns written by PaymentProcessor._update_client_billing). -/
structure ClientPayment where
  id : Nat
  clientId : Int
  amount : ℚ
  method : String
  paymentDate : Int
deriving Repr, DecidableEq

/-- One row of the payout_transactions table, with exactly the columns of
its schema (src/data/SQL/sql.py lines 18-28) that the code writes or
reads back.  Note the schema has no payment_id column: nothing links a
payout row to the client payments it was computed from. -/
structure PayoutTxn where
  category : String
  amount : ℚ
  percentage : ℚ
  destinationAccount : String
  status : String
  reference : String
deriving Repr, DecidableEq

/-- payout_agent.py lines 181-209, PayoutAgent._record_payouts: one row
per category, all inserted then committed once; status is completed when
that category's transfer result reported success and failed otherwise
(payout_results.get(category, empty dict) defaults to a falsy dict). -/
def recordPayouts (allocs : List (String × Allocation))
    (results : List (String × TransferResult))
    (txns : List PayoutTxn) : List PayoutTxn :=
  txns ++ allocs.map (fun ca =>
    let r := (results.lookup ca.1).getD ⟨false, none, none⟩
    ⟨ca.1, ca.2.amount, ca.2.percentage, ca.2.account.accountName,
     if r.success then "completed" else "failed",
     r.reference.getD ""⟩)

/-- The ledger tables touched by the payout cycle. -/
structure LedgerState where
  clientPayments : List ClientPayment
  payoutTxns : List PayoutTxn
deriving Repr, DecidableEq

/-- payout_agent.py lines 100-113: the available-revenue query.  Its NOT
IN subquery is SELECT payment_id FROM payout_transactions WHERE status =
completed, but NO repository schema gives payout_transactions (or
client_payments, the only outer table in scope for correlated name
resolution) a payment_id column — src/data/SQL/sql.py lines 18-28 defines
the table without one and src/app.py does not create it at all.  SQLite
therefore raises OperationalError (no such column / no such table) when
the statement is prepared, on every invocation and every database
state: the query never produces a row set. -/
def revenueQuery (_today : Int) (_st : LedgerState) : Except String ℚ :=
  .error "no such column: payment_id"

/-- payout_agent.py lines 97-117, PayoutAgent._get_available_revenue: the
try/except returns the query's aggregate on success and swallows any
exception into Decimal 0.00.  Since the query always raises (see
revenueQuery), every call returns 0.00. -/
def getAvailableRevenue (today : Int) (st : LedgerState) : ℚ :=
  match revenueQuery today st with
  | .ok v => v
  | .error _ => 0

/-- The dict returned by process_daily_payouts: the below-threshold early
return (success False with the threshold reason and the available amount),
the success dict, or the outer-except error dict. -/
inductive PayoutOutcome where
  | belowThreshold (available : ℚ)
  | completed (totalPayout : ℚ) (allocs : List (String × Allocation))
      (results : List (String × TransferResult))
  | failure (err : String)
deriving Repr, DecidableEq

/-- payout_agent.py lines 56-95, PayoutAgent.process_daily_payouts:
compute available revenue, return the below-threshold dict when it is
under minimum_payout, otherwise allocate, execute and record.  The outer
except branch (the failure constructor) is unreachable here because every
callee swallows its own exceptions — and the allocate/execute/record arm
is unreachable too, because getAvailableRevenue always returns 0.00,
below the 1000.00 minimum. -/
def processDailyPayouts (today : Int) (st : LedgerState) :
    PayoutOutcome × LedgerState :=
  let available := getAvailableRevenue today st
  if available < minimumPayout then
    (.belowThreshold available, st)
  else
    let allocs := calculateAllocations available
    let results := executePayouts allocs
    (.completed available allocs results,
     { st with payoutTxns := recordPayouts allocs results st.payoutTxns })

/-- A scheduled sequence of daily payout cycles: process_daily_payouts
invoked once per listed day, each over the state the previous call left
behind (src/app.py payout_scheduler runs it daily). -/
def runCycles (todays : List Int) (st : LedgerState) : LedgerState :=
  todays.foldl (fun s t => (processDailyPayouts t s).2) st

end PayoutAgent

namespace PaymentProcessor

/-- The dict a gateway adapter returns from create_payment_request /
create_payment_intent / process_eft_payment, restricted to the keys
PaymentProcessor reads: success, payment_id, status, gateway and
next_actions (missing keys are none / empty).  The adapters build this
dict themselves (payfast_gateway.py 29-74, stripe_gateway.py 26-77,
eft_processor.py 23-66); each swallows its own exceptions and returns an
error dict without a status key, so from process_payment's point of view
the gateway call always returns a dict and never raises. -/
structure GatewayResult where
  success : Bool
  paymentId : Option String
  status : Option String
  gateway : Option String
  nextActions : List String
deriving Repr, DecidableEq

/-- payment_processor.py lines 110-113: the PayFast required-key check.
The details dict is modelled by its list of present keys. -/
def validatePayfastDetails (details : List String) : Bool :=
  ["return_url", "cancel_url", "notify_url"].all (fun k => details.contains k)

/-- payment_processor.py lines 115-117: the Stripe check. -/
def validateStripeDetails (details : List String) : Bool :=
  details.contains "payment_method_id" || details.contains "setup_future_usage"

/-- payment_processor.py lines 119-122: the EFT required-key check. -/
def validateEftDetails (details : List String) : Bool :=
  ["bank_name", "account_holder", "reference"].all (fun k => details.contains k)

/-- payment_processor.py lines 99-108, _validate_payment_details:
validators.get(method) is None for every unknown method, and the function
then returns False. -/
def validatePaymentDetails (method : String) (details : List String) : Bool :=
  if method = "payfast" then validatePayfastDetails details
  else if method = "stripe" then validateStripeDetails details
  else if method = "eft" then validateEftDetails details
  else false

/-- One row of the payment_attempts table (src/data/SQL/sql.py lines 2-15)
as written by _record_payment_attempt (payment_processor.py 129-141). -/
structure PaymentAttemptRow where
  id : Nat
  clientId : Int
  amount : ℚ
  currency : String
  method : String
  gateway : String
  gatewayReference : Option String
  status : String
deriving Repr, DecidableEq

/-- The billing-side database state: the payment_attempts and
client_payments tables plus the log of UPDATE clients executions (only
the updated client id is observable to the claims). -/
structure BillingState where
  paymentAttempts : List PaymentAttemptRow
  clientPayments : List PayoutAgent.ClientPayment
  clientUpdates : List Int
  nextAttemptId : Nat
  nextPaymentId : Nat
deriving Repr, DecidableEq

/-- Externally visible effects of one process_payment call, in program
order: the outbound gateway call and the committed database writes. -/
inductive PPEvent where
  | gatewayCall (method : String) (amount : ℚ)
  | insertAttempt (attemptId : Nat) (status : String)
  | insertClientPayment (clientId : Int) (amount : ℚ)
  | updateClient (clientId : Int)
deriving Repr, DecidableEq

/-- payment_processor.py lines 158-181, _update_client_billing: inserts a
client_payments row for the amount and touches the client's
last_payment_date; its own exceptions are swallowed (not modelled: no
claim exercises a billing-write failure). -/
def updateClientBilling (clientId : Int) (amount : ℚ) (method : String)
    (today : Int) (st : BillingState) : BillingState × List PPEvent :=
  let cp : PayoutAgent.ClientPayment :=
    ⟨st.nextPaymentId, clientId, amount, method, today⟩
  ({ st with clientPayments := st.clientPayments ++ [cp],
             clientUpdates := st.clientUpdates ++ [clientId],
             nextPaymentId := st.nextPaymentId + 1 },
   [.insertClientPayment clientId amount, .updateClient clientId])

/-- The dict process_payment returns: the two synchronous validation
error dicts, the normal dict built from the gateway result and the
recorded attempt id, and the outer-except error dict. -/
inductive PaymentResult where
  | invalidDetails
  | unsupportedMethod
  | processed (success : Bool) (paymentId : Option String)
      (clientReference : Nat) (nextActions : List String)
  | errorResult (msg : String)
deriving Repr, DecidableEq

/-- payment_processor.py lines 29-82, PaymentProcessor.process_payment.

Order of effects, exactly as in the source: validate the details (pure,
no write); dispatch on the method name and CALL THE GATEWAY (the result
dict is the g argument — the adapters never raise, see GatewayResult);
then _record_payment_attempt writes the attempt row with
status = result.get(status, pending); then, when the gateway result
reports success, _update_client_billing writes the client_payments row;
finally the return dict reads payment_record[id].

recordFail models _record_payment_attempt's own DB insert raising: the
helper swallows the exception and returns an empty dict (lines 154-156),
so no attempt row is committed, billing still runs on success, and the
final payment_record[id] lookup raises KeyError into the outer except
(lines 76-82). -/
def processPayment (clientId : Int) (amount : ℚ) (method : String)
    (details : List String) (g : GatewayResult) (recordFail : Bool)
    (today : Int) (st : BillingState) :
    PaymentResult × BillingState × List PPEvent :=
  if !(validatePaymentDetails method details) then
    (.invalidDetails, st, [])
  else if method = "payfast" || method = "stripe" || method = "eft" then
    let ev0 : List PPEvent := [.gatewayCall method amount]
    if recordFail then
      let (st1, ev1) :=
        if g.success then updateClientBilling clientId amount method today st
        else (st, [])
      (.errorResult "KeyError: id", st1, ev0 ++ ev1)
    else
      let row : PaymentAttemptRow :=
        ⟨st.nextAttemptId, clientId, amount, "ZAR", method,
         g.gateway.getD method, g.paymentId, g.status.getD "pending"⟩
      let st1 := { st with paymentAttempts := st.paymentAttempts ++ [row],
                           nextAttemptId := st.nextAttemptId + 1 }
      let evA := ev0 ++ [PPEvent.insertAttempt row.id row.status]
      if g.success then
        let (st2, ev2) := updateClientBilling clientId amount method today st1
        (.processed true g.paymentId row.id g.nextActions, st2, evA ++ ev2)
      else
        (.processed false g.paymentId row.id g.nextActions, st1, evA)
  else
    (.unsupportedMethod, st, [])

/-- payment_processor.py lines 84-97, PaymentProcessor.handle_payment_webhook:
dispatch on the gateway name, return the adapter's verify_webhook boolean
(supplied as the payfastVerify / stripeVerify oracle, covering the
adapter's catch-all which turns its own exceptions into False), return
False for every other name.  No database access at all. -/
def handlePaymentWebhook (gateway : String) (payfastVerify stripeVerify : Bool)
    (st : BillingState) : Bool × BillingState :=
  if gateway = "payfast" then (payfastVerify, st)
  else if gateway = "stripe" then (stripeVerify, st)
  else (false, st)

end PaymentProcessor

namespace AutoFundingEngine

/-- auto_funding.py lines 8-13: funding_rules, insertion ordered. -/
def fundingRules : List (String × ℚ) :=
  [("platform_maintenance", 10/100), ("owner_compensation", 30/100),
   ("reinvestment", 40/100), ("tax_reserve", 20/100)]

/-- One row of the revenue_allocations table (src/app.py lines 108-119)
as written by _record_allocation. -/
structure RevenueAllocationRow where
  category : String
  amount : ℚ
  totalRevenue : ℚ
deriving Repr, DecidableEq

/-- auto_funding.py lines 29-42, AutoFundingEngine._record_allocation:
one INSERT followed by its own commit, inside a try/except that swallows
any DB error — insertFail category models that error, in which case the
table is unchanged. -/
def recordAllocation (insertFail : String → Bool) (category : String)
    (amount totalRevenue : ℚ) (rows : List RevenueAllocationRow) :
    List RevenueAllocationRow :=
  if insertFail category then rows else rows ++ [⟨category, amount, totalRevenue⟩]

/-- auto_funding.py lines 15-27, AutoFundingEngine.process_revenue_allocation:
for each category of funding_rules, allocation = revenue * percentage (no
rounding), added to the returned allocations dict and recorded by its own
per-row transaction. -/
def processRevenueAllocation (insertFail : String → Bool) (revenue : ℚ)
    (rows : List RevenueAllocationRow) :
    List (String × ℚ) × List RevenueAllocationRow :=
  fundingRules.foldl (fun acc cp =>
    (acc.1 ++ [(cp.1, revenue * cp.2)],
     recordAllocation insertFail cp.1 (revenue * cp.2) revenue acc.2))
    ([], rows)

end AutoFundingEngine

/-! Theorems.  Shared evaluation lemmas first, then one theorem per claim
(with its counterexample and witness where applicable). -/

open PayoutAgent PaymentProcessor AutoFundingEngine

/-- The configured destination account numbers contain neither of the
substrings the transfer router looks for. -/
theorem strIn_fnb_acct1 : strIn "fnb" "encrypted_account_001" = false := by decide

theorem strIn_fnb_acct2 : strIn "fnb" "encrypted_account_002" = false := by decide

theorem strIn_fnb_acct3 : strIn "fnb" "encrypted_account_003" = false := by decide

theorem strIn_rnb_acct1 : strIn "rnb" "encrypted_account_001" = false := by decide

theorem strIn_rnb_acct2 : strIn "rnb" "encrypted_account_002" = false := by decide

theorem strIn_rnb_acct3 : strIn "rnb" "encrypted_account_003" = false := by decide

/-- Every payout execution fails with the Unknown bank error: the account
numbers of all three configured destinations contain neither fnb nor rnb,
so _execute_payouts never reaches either bank client.  Each category's
result is computed independently of the other categories. -/
theorem executePayouts_calc (t : ℚ) :
    executePayouts (calculateAllocations t) =
      [("owner", ⟨false, none, some "Unknown bank"⟩),
       ("ai_fund", ⟨false, none, some "Unknown bank"⟩),
       ("reserve", ⟨false, none, some "Unknown bank"⟩)] := by
  simp [executePayouts, calculateAllocations, allocationRules, executeCategory,
    getDestinationAccount, loadEncryptedAccount, strIn_fnb_acct1, strIn_fnb_acct2,
    strIn_fnb_acct3, strIn_rnb_acct1, strIn_rnb_acct2, strIn_rnb_acct3]

/-- Every call of process_daily_payouts is a reported no-op: the select
query raises, _get_available_revenue returns 0.00, which is below the
1000.00 minimum, so the cycle returns the below-threshold dict and the
state is untouched. -/
theorem processDailyPayouts_always_noop (today : Int) (st : LedgerState) :
    processDailyPayouts today st = (.belowThreshold 0, st) := by
  have h0 : getAvailableRevenue today st = 0 := rfl
  simp only [processDailyPayouts, h0]
  rw [if_pos (by norm_num [minimumPayout])]

/-- Any scheduled sequence of payout cycles leaves the ledger exactly as
it started. -/
theorem runCycles_noop (todays : List Int) (st : LedgerState) :
    runCycles todays st = st := by
  induction todays generalizing st with
  | nil => rfl
  | cons t ts ih =>
      show runCycles ts (processDailyPayouts t st).2 = st
      rw [processDailyPayouts_always_noop]
      exact ih st

/-- C1.  At-most-once allocation holds on the code, but only vacuously:
the select query of _get_available_revenue references a payment_id column
that exists in no repository schema, so it raises on every call, every
cycle returns below-threshold, and no payout row is ever created.  Over
any sequence of process_daily_payouts invocations starting from a ledger
with no payout rows, the payout amounts ever created sum to 0, which
never exceeds the (non-negative) sum of ClientPayment amounts ever
ledgered, and no ClientPayment row is ever selected or consumed at all —
in particular none is ever selected twice. -/
theorem c1_at_most_once_allocation (todays : List Int) (st : LedgerState)
    (hstart : st.payoutTxns = [])
    (hpos : ∀ p ∈ st.clientPayments, 0 ≤ p.amount) :
    (runCycles todays st).clientPayments = st.clientPayments
    ∧ (runCycles todays st).payoutTxns = []
    ∧ ((runCycles todays st).payoutTxns.map (fun t => t.amount)).sum
        ≤ ((runCycles todays st).clientPayments.map (fun p => p.amount)).sum := by
  rw [runCycles_noop, hstart]
  refine ⟨rfl, rfl, ?_⟩
  simp only [List.map_nil, List.sum_nil]
  apply List.sum_nonneg
  intro x hx
  obtain ⟨p, hp, rfl⟩ := List.mem_map.1 hx
  exact hpos p hp

/-- C1 witness: two same-day cycles over one ledgered payment of 2000.00
create no payout row and touch no ClientPayment. -/
theorem c1_at_most_once_allocation_witness :
    ((⟨[⟨1, 7, 2000, "eft", 0⟩], []⟩ : LedgerState).payoutTxns = [])
    ∧ (∀ p ∈ (⟨[⟨1, 7, 2000, "eft", 0⟩], []⟩ : LedgerState).clientPayments, 0 ≤ p.amount)
    ∧ ((runCycles [0, 0] ⟨[⟨1, 7, 2000, "eft", 0⟩], []⟩).clientPayments =
        (⟨[⟨1, 7, 2000, "eft", 0⟩], []⟩ : LedgerState).clientPayments
      ∧ (runCycles [0, 0] ⟨[⟨1, 7, 2000, "eft", 0⟩], []⟩).payoutTxns = []
      ∧ ((runCycles [0, 0] ⟨[⟨1, 7, 2000, "eft", 0⟩], []⟩).payoutTxns.map
            (fun t => t.amount)).sum
          ≤ ((runCycles [0, 0] ⟨[⟨1, 7, 2000, "eft", 0⟩], []⟩).clientPayments.map
            (fun p => p.amount)).sum) := by
  have hpos : ∀ p ∈ (⟨[⟨1, 7, 2000, "eft", 0⟩], []⟩ : LedgerState).clientPayments,
      0 ≤ p.amount := by
    intro p hp
    simp only [List.mem_singleton] at hp
    rw [hp]
    norm_num
  exact ⟨rfl, hpos, c1_at_most_once_allocation [0, 0] _ rfl hpos⟩

/-- C5.  Below-threshold no-op: whenever the available revenue is below
minimum_payout, process_daily_payouts returns the below-threshold result
dict (success False with the threshold reason, not the error dict) and
the database state is completely unchanged. -/
theorem c5_below_threshold_noop (today : Int) (st : LedgerState)
    (h : getAvailableRevenue today st < minimumPayout) :
    processDailyPayouts today st =
      (.belowThreshold (getAvailableRevenue today st), st) := by
  simp only [processDailyPayouts]
  rw [if_pos h]

/-- C5 witness: a ledger holding 999.99 of same-day revenue (and, like
every ledger, reported as 0.00 available by the erroring query) is under
the 1000.00 threshold and the cycle is a reported no-op. -/
theorem c5_below_threshold_noop_witness :
    getAvailableRevenue 0 ⟨[⟨1, 7, 99999/100, "eft", 0⟩], []⟩ < minimumPayout
    ∧ processDailyPayouts 0 ⟨[⟨1, 7, 99999/100, "eft", 0⟩], []⟩ =
        (.belowThreshold (getAvailableRevenue 0 ⟨[⟨1, 7, 99999/100, "eft", 0⟩], []⟩),
         ⟨[⟨1, 7, 99999/100, "eft", 0⟩], []⟩) := by
  have hw : getAvailableRevenue 0 ⟨[⟨1, 7, 99999/100, "eft", 0⟩], []⟩ < minimumPayout := by
    have he : getAvailableRevenue 0 ⟨[⟨1, 7, 99999/100, "eft", 0⟩], []⟩ = 0 := rfl
    rw [he]
    norm_num [minimumPayout]
  exact ⟨hw, c5_below_threshold_noop 0 _ hw⟩

/-- C9.  The select-phase query always raises (its subquery names a
payment_id column no schema has); _get_available_revenue swallows the
exception and returns Decimal 0.00, so process_daily_payouts reports the
below-minimum outcome (success False with the threshold reason) instead
of surfacing a persistence error, mutates nothing and executes no
transfer in that cycle. -/
theorem c9_db_error_reported_as_below_threshold (today : Int) (st : LedgerState) :
    (∃ e, revenueQuery today st = .error e)
    ∧ getAvailableRevenue today st = 0
    ∧ processDailyPayouts today st = (.belowThreshold 0, st) :=
  ⟨⟨"no such column: payment_id", rfl⟩, rfl, processDailyPayouts_always_noop today st⟩

/-- C6 counterexample: the Pending-retry half of the claim fails at the
function level and the cycle level.  _record_payouts given a category
whose transfer failed records that category with status failed, not
Pending; and a cycle over a ledger holding 5000.00 of same-day revenue —
which the claim would have allocate and then retry its failures — records
zero rows at all, because the select query errors to 0.00 available and
the execute phase is never reached, so no later cycle ever has a Pending
allocation to retry. -/
theorem c6_failed_recorded_failed_counterexample :
    ((recordPayouts [("owner", ⟨1200, 60, loadEncryptedAccount "owner_fnb"⟩)]
        [("owner", ⟨false, none, some "Unknown bank"⟩)] []).map (fun t => t.status) =
      ["failed"])
    ∧ ¬ ((recordPayouts [("owner", ⟨1200, 60, loadEncryptedAccount "owner_fnb"⟩)]
        [("owner", ⟨false, none, some "Unknown bank"⟩)] []).map (fun t => t.status) =
      ["pending"])
    ∧ ((processDailyPayouts 0 ⟨[⟨2, 9, 5000, "eft", 0⟩], []⟩).2.payoutTxns.length = 0) := by
  refine ⟨rfl, by decide, ?_⟩
  rw [processDailyPayouts_always_noop]
  rfl

/-- C6 (amended).  Of the claim only the isolation half survives, as a
property of the execute/record helpers: _execute_payouts computes every
category's transfer result independently (with the configured accounts
each one fails with Unknown bank, since no account number contains fnb
or rnb, yet every category still gets its own result and row — no
failure blocks a sibling).  A failed transfer is recorded by
_record_payouts with payoutStatus failed — a recorded row is never
Pending.  And no retry of Pending allocations exists: every
process_daily_payouts cycle stops at the below-threshold guard (the
select query always errors to 0.00), so the execute phase is unreachable
from the entry point and no allocation rows ever exist to retry. -/
theorem c6_isolation_no_pending_no_retry (today : Int) (st : LedgerState) :
    (∀ t : ℚ, executePayouts (calculateAllocations t) =
      [("owner", ⟨false, none, some "Unknown bank"⟩),
       ("ai_fund", ⟨false, none, some "Unknown bank"⟩),
       ("reserve", ⟨false, none, some "Unknown bank"⟩)])
    ∧ (∀ (allocs : List (String × Allocation)) (results : List (String × TransferResult))
        (txns : List PayoutTxn) (t : PayoutTxn),
        t ∈ recordPayouts allocs results txns →
        t ∈ txns ∨ t.status = "completed" ∨ t.status = "failed")
    ∧ (processDailyPayouts today st).2 = st := by
  refine ⟨executePayouts_calc, ?_, ?_⟩
  · intro allocs results txns t ht
    rcases List.mem_append.1 ht with hl | hr
    · exact Or.inl hl
    · obtain ⟨ca, _, rfl⟩ := List.mem_map.1 hr
      refine Or.inr ?_
      by_cases hs : ((results.lookup ca.1).getD ⟨false, none, none⟩).success
      · exact Or.inl (by simp [hs])
      · exact Or.inr (by simp [hs])
  · rw [processDailyPayouts_always_noop]

/-- C6 witness: a concrete recorded row of a failed owner transfer has
status failed (not Pending), and a cycle over a 3000.00 ledger leaves the
state untouched. -/
theorem c6_isolation_no_pending_no_retry_witness :
    ((⟨"owner", 1200, 60, "Owner Personal Account", "failed", ""⟩ : PayoutTxn) ∈
        recordPayouts [("owner", ⟨1200, 60, loadEncryptedAccount "owner_fnb"⟩)]
          [("owner", ⟨false, none, some "Unknown bank"⟩)] [])
    ∧ ((⟨"owner", 1200, 60, "Owner Personal Account", "failed", ""⟩ : PayoutTxn) ∈
          ([] : List PayoutTxn)
        ∨ (⟨"owner", 1200, 60, "Owner Personal Account", "failed", ""⟩ : PayoutTxn).status =
            "completed"
        ∨ (⟨"owner", 1200, 60, "Owner Personal Account", "failed", ""⟩ : PayoutTxn).status =
            "failed")
    ∧ (processDailyPayouts 0 ⟨[⟨3, 4, 3000, "eft", 0⟩], []⟩).2 =
        ⟨[⟨3, 4, 3000, "eft", 0⟩], []⟩ := by
  have hmem : (⟨"owner", 1200, 60, "Owner Personal Account", "failed", ""⟩ : PayoutTxn) ∈
      recordPayouts [("owner", ⟨1200, 60, loadEncryptedAccount "owner_fnb"⟩)]
        [("owner", ⟨false, none, some "Unknown bank"⟩)] [] := by
    simp [recordPayouts, loadEncryptedAccount, List.lookup]
  exact ⟨hmem,
    (c6_isolation_no_pending_no_retry 0 ⟨[⟨3, 4, 3000, "eft", 0⟩], []⟩).2.1
      [("owner", ⟨1200, 60, loadEncryptedAccount "owner_fnb"⟩)]
      [("owner", ⟨false, none, some "Unknown bank"⟩)] [] _ hmem,
    (c6_isolation_no_pending_no_retry 0 ⟨[⟨3, 4, 3000, "eft", 0⟩], []⟩).2.2⟩

/-- C3 counterexample: delivering the same verified PayFast settlement
webhook twice to a ledger holding one Pending attempt produces ZERO
ClientPayment rows (not exactly one) and leaves the attempt pending (not
Completed): handle_payment_webhook only returns the signature-verification
boolean and touches no table. -/
theorem c3_webhook_never_settles_counterexample :
    ((handlePaymentWebhook "payfast" true true
        (handlePaymentWebhook "payfast" true true
          ⟨[⟨1, 7, 2000, "ZAR", "payfast", "payfast", some "pf_123", "pending"⟩],
           [], [], 2, 1⟩).2).2.clientPayments.length = 0)
    ∧ ¬ ((handlePaymentWebhook "payfast" true true
        (handlePaymentWebhook "payfast" true true
          ⟨[⟨1, 7, 2000, "ZAR", "payfast", "payfast", some "pf_123", "pending"⟩],
           [], [], 2, 1⟩).2).2.clientPayments.length = 1)
    ∧ ((handlePaymentWebhook "payfast" true true
        (handlePaymentWebhook "payfast" true true
          ⟨[⟨1, 7, 2000, "ZAR", "payfast", "payfast", some "pf_123", "pending"⟩],
           [], [], 2, 1⟩).2).2.paymentAttempts.map (fun r => r.status) = ["pending"]) := by
  refine ⟨rfl, by decide, rfl⟩

/-- C3 (amended).  handle_payment_webhook dispatches to the named
gateway's verify_webhook and returns its boolean; it performs no
PaymentAttempt transition and creates no ClientPayment row.  Every
delivery — first or repeated — leaves the ledger state unchanged, so
re-delivery is a no-op only because every delivery is a no-op on state,
and a repeated delivery returns the same result as the first. -/
theorem c3_webhook_is_pure_verification (gateway : String)
    (payfastVerify stripeVerify : Bool) (st : BillingState) :
    ((handlePaymentWebhook gateway payfastVerify stripeVerify st).2 = st)
    ∧ (handlePaymentWebhook gateway payfastVerify stripeVerify
        (handlePaymentWebhook gateway payfastVerify stripeVerify st).2 =
       handlePaymentWebhook gateway payfastVerify stripeVerify st) := by
  have hsnd : (handlePaymentWebhook gateway payfastVerify stripeVerify st).2 = st := by
    simp only [handlePaymentWebhook]
    split_ifs <;> rfl
  exact ⟨hsnd, by rw [hsnd]⟩

/-- C10.  For every gateway name other than payfast and stripe — eft
included, although process_payment accepts eft as a payment method —
handle_payment_webhook returns False and performs no state change, so
settlements for such gateways can never be credited through the webhook
entry point. -/
theorem c10_unknown_webhook_gateway_rejected (gateway : String)
    (payfastVerify stripeVerify : Bool) (st : BillingState)
    (h1 : gateway ≠ "payfast") (h2 : gateway ≠ "stripe") :
    handlePaymentWebhook gateway payfastVerify stripeVerify st = (false, st) := by
  simp [handlePaymentWebhook, h1, h2]

/-- C10 witness: the eft gateway name, accepted by process_payment, is
rejected by the webhook handler with no state change. -/
theorem c10_unknown_webhook_gateway_rejected_witness :
    ("eft" ≠ "payfast") ∧ ("eft" ≠ "stripe")
    ∧ handlePaymentWebhook "eft" true true ⟨[], [], [], 0, 0⟩ =
        (false, ⟨[], [], [], 0, 0⟩) :=
  ⟨by decide, by decide,
   c10_unknown_webhook_gateway_rejected "eft" true true ⟨[], [], [], 0, 0⟩
     (by decide) (by decide)⟩

/-- C4 counterexample: a persistence failure on the single category
reinvestment during process_revenue_allocation leaves the rows of the
other three categories committed — a partially applied allocation batch
(3 of 4 categories) is observable, because _record_allocation runs one
INSERT-plus-commit per category and swallows each category's DB error
separately. -/
theorem c4_partial_batch_counterexample :
    ((processRevenueAllocation (fun c => c == "reinvestment") 1000 []).2 =
      [⟨"platform_maintenance", 1000 * (10/100), 1000⟩,
       ⟨"owner_compensation", 1000 * (30/100), 1000⟩,
       ⟨"tax_reserve", 1000 * (20/100), 1000⟩])
    ∧ ((processRevenueAllocation (fun c => c == "reinvestment") 1000 []).2.length = 3)
    ∧ ¬ (((processRevenueAllocation (fun c => c == "reinvestment") 1000 []).2.length = 0)
        ∨ ((processRevenueAllocation (fun c => c == "reinvestment") 1000 []).2.length = 4))
    ∧ ((processRevenueAllocation (fun c => c == "reinvestment") 1000 []).1.length = 4) := by
  refine ⟨rfl, rfl, by decide, rfl⟩

/-- C4 (amended).  The allocate step of AutoFundingEngine is NOT one
transaction: each category's row is inserted and committed by its own
per-row transaction whose failure is caught and logged individually, so
the committed batch is exactly the subset of categories whose insert
succeeded — a failure in one category leaves the other categories' rows
in place, and partial application of a batch is observable.  (Only
PayoutAgent._record_payouts batches its inserts under a single final
commit.) -/
theorem c4_per_category_commit (insertFail : String → Bool) (revenue : ℚ)
    (rows : List RevenueAllocationRow) :
    (processRevenueAllocation insertFail revenue rows).2 =
      rows ++ (fundingRules.filter (fun cp => !(insertFail cp.1))).map
        (fun cp => ⟨cp.1, revenue * cp.2, revenue⟩) := by
  cases hf1 : insertFail "platform_maintenance" <;>
    cases hf2 : insertFail "owner_compensation" <;>
      cases hf3 : insertFail "reinvestment" <;>
        cases hf4 : insertFail "tax_reserve" <;>
          simp [processRevenueAllocation, fundingRules, recordAllocation, hf1, hf2, hf3, hf4]

/-- C7 counterexample: for a validated EFT payment the very first
external effect of process_payment is the gateway call — the
PaymentAttempt row is inserted only afterwards, so no attempt is durably
written before control crosses the process boundary.  (The EFT adapter
answers success with status pending, as process_eft_payment always
does.) -/
theorem c7_gateway_called_before_attempt_write_counterexample :
    ((processPayment 7 2500 "eft" ["bank_name", "account_holder", "reference"]
        ⟨true, some "CBT000007INV1", some "pending", some "eft", []⟩ false 0
        ⟨[], [], [], 1, 1⟩).2.2.head? = some (.gatewayCall "eft" 2500))
    ∧ ((processPayment 7 2500 "eft" ["bank_name", "account_holder", "reference"]
        ⟨true, some "CBT000007INV1", some "pending", some "eft", []⟩ false 0
        ⟨[], [], [], 1, 1⟩).2.2 =
        [.gatewayCall "eft" 2500, .insertAttempt 1 "pending",
         .insertClientPayment 7 2500, .updateClient 7]) := by
  constructor <;> rfl

/-- C7 (amended).  For every validated payment the gateway is called
FIRST and the attempt row is written immediately afterwards, carrying the
gateway result's status with pending as the default; in particular a
transiently failing gateway call — which every adapter converts into an
error dict without a status key, never an exception — still leaves an
attempt recorded as pending for reconciliation.  (An attempt is lost only
when the attempt INSERT itself fails, the recordFail path.) -/
theorem c7_attempt_recorded_after_gateway (clientId : Int) (amount : ℚ)
    (method : String) (details : List String) (g : GatewayResult) (today : Int)
    (st : BillingState)
    (h : validatePaymentDetails method details = true) :
    ((processPayment clientId amount method details g false today st).2.2.take 2 =
      [.gatewayCall method amount,
       .insertAttempt st.nextAttemptId (g.status.getD "pending")])
    ∧ ((processPayment clientId amount method details g false today st).2.1.paymentAttempts =
        st.paymentAttempts ++
          [⟨st.nextAttemptId, clientId, amount, "ZAR", method, g.gateway.getD method,
            g.paymentId, g.status.getD "pending"⟩]) := by
  have hm : (method = "payfast" || method = "stripe" || method = "eft") = true := by
    by_cases h1 : method = "payfast" <;> by_cases h2 : method = "stripe" <;>
      by_cases h3 : method = "eft" <;>
        simp_all [validatePaymentDetails]
  cases hs : g.success <;>
    simp [processPayment, h, hm, hs, updateClientBilling]

/-- C7 witness: a PayFast request whose gateway call fails transiently
(error dict, no status key) still ends with an attempt row recorded as
pending, written right after the gateway call. -/
theorem c7_attempt_recorded_after_gateway_witness :
    validatePaymentDetails "payfast" ["return_url", "cancel_url", "notify_url"] = true
    ∧ (((processPayment 3 450 "payfast" ["return_url", "cancel_url", "notify_url"]
          ⟨false, none, none, some "payfast", []⟩ false 0
          ⟨[], [], [], 5, 1⟩).2.2.take 2 =
        [.gatewayCall "payfast" 450, .insertAttempt 5 "pending"])
      ∧ ((processPayment 3 450 "payfast" ["return_url", "cancel_url", "notify_url"]
          ⟨false, none, none, some "payfast", []⟩ false 0
          ⟨[], [], [], 5, 1⟩).2.1.paymentAttempts =
          [] ++ [⟨5, 3, 450, "ZAR", "payfast", "payfast", none, "pending"⟩])) :=
  ⟨by decide,
   c7_attempt_recorded_after_gateway 3 450 "payfast"
     ["return_url", "cancel_url", "notify_url"]
     ⟨false, none, none, some "payfast", []⟩ 0 ⟨[], [], [], 5, 1⟩ (by decide)⟩

/-- C8 counterexample: process_payment never validates the amount — a
payment of -100 with complete EFT details sails through validation, the
gateway is invoked and a payment_attempts row IS written (length 1, not
0), with a success result.  Moreover an unknown method (bitcoin) is
rejected with the generic Invalid-payment-details error, not the claimed
UnsupportedMethod error. -/
theorem c8_amount_not_validated_counterexample :
    ((processPayment 7 (-100) "eft" ["bank_name", "account_holder", "reference"]
        ⟨true, some "CBT000007INV9", some "pending", some "eft", []⟩ false 0
        ⟨[], [], [], 1, 1⟩).2.1.paymentAttempts.length = 1)
    ∧ ¬ ((processPayment 7 (-100) "eft" ["bank_name", "account_holder", "reference"]
        ⟨true, some "CBT000007INV9", some "pending", some "eft", []⟩ false 0
        ⟨[], [], [], 1, 1⟩).2.1.paymentAttempts.length = 0)
    ∧ ((processPayment 7 (-100) "eft" ["bank_name", "account_holder", "reference"]
        ⟨true, some "CBT000007INV9", some "pending", some "eft", []⟩ false 0
        ⟨[], [], [], 1, 1⟩).1 = .processed true (some "CBT000007INV9") 1 [])
    ∧ ((processPayment 7 100 "bitcoin" ["anything"]
        ⟨true, none, none, none, []⟩ false 0 ⟨[], [], [], 1, 1⟩).1 = .invalidDetails)
    ∧ ((processPayment 7 100 "bitcoin" ["anything"]
        ⟨true, none, none, none, []⟩ false 0 ⟨[], [], [], 1, 1⟩).1 ≠ .unsupportedMethod) := by
  refine ⟨rfl, by decide, rfl, rfl, by decide⟩

/-- C8 (amended).  Only the method-specific details are validated: any
call whose details fail validation — which includes every unknown
payment method, since the validator lookup yields nothing for it —
returns the Invalid-payment-details error synchronously with no row
written and no gateway call; the separate Unsupported-payment-method
error branch is unreachable on every input; and the amount is never
validated at all. -/
theorem c8_validation_rejects_without_write (clientId : Int) (amount : ℚ)
    (method : String) (details : List String) (g : GatewayResult)
    (recordFail : Bool) (today : Int) (st : BillingState) :
    ((validatePaymentDetails method details = false →
        processPayment clientId amount method details g recordFail today st =
          (.invalidDetails, st, [])))
    ∧ ((method ≠ "payfast" ∧ method ≠ "stripe" ∧ method ≠ "eft") →
        validatePaymentDetails method details = false
        ∧ processPayment clientId amount method details g recordFail today st =
            (.invalidDetails, st, []))
    ∧ ((processPayment clientId amount method details g recordFail today st).1 ≠
        .unsupportedMethod) := by
  have hpart1 : validatePaymentDetails method details = false →
      processPayment clientId amount method details g recordFail today st =
        (.invalidDetails, st, []) := by
    intro hv
    simp [processPayment, hv]
  refine ⟨hpart1, ?_, ?_⟩
  · rintro ⟨h1, h2, h3⟩
    have hv : validatePaymentDetails method details = false := by
      simp [validatePaymentDetails, h1, h2, h3]
    exact ⟨hv, hpart1 hv⟩
  · by_cases hv : validatePaymentDetails method details = true
    · have hm : (method = "payfast" || method = "stripe" || method = "eft") = true := by
        by_cases h1 : method = "payfast" <;> by_cases h2 : method = "stripe" <;>
          by_cases h3 : method = "eft" <;> simp_all [validatePaymentDetails]
      cases hrf : recordFail <;> cases hs : g.success <;>
        simp [processPayment, hv, hm, hs, updateClientBilling]
    · rw [hpart1 (by simpa using hv)]
      simp

/-- C8 witness: the unknown bitcoin method is rejected synchronously
with the Invalid-payment-details error, unchanged state and no effect. -/
theorem c8_validation_rejects_without_write_witness :
    (processPayment 3 50 "bitcoin" ["x"] ⟨true, none, none, none, []⟩ false 0
        ⟨[], [], [], 1, 1⟩ = (.invalidDetails, ⟨[], [], [], 1, 1⟩, []))
    ∧ (validatePaymentDetails "bitcoin" ["x"] = false
      ∧ processPayment 3 50 "bitcoin" ["x"] ⟨true, none, none, none, []⟩ false 0
          ⟨[], [], [], 1, 1⟩ = (.invalidDetails, ⟨[], [], [], 1, 1⟩, [])) :=
  ⟨(c8_validation_rejects_without_write 3 50 "bitcoin" ["x"]
      ⟨true, none, none, none, []⟩ false 0 ⟨[], [], [], 1, 1⟩).1 (by decide),
   (c8_validation_rejects_without_write 3 50 "bitcoin" ["x"]
      ⟨true, none, none, none, []⟩ false 0 ⟨[], [], [], 1, 1⟩).2.1
     ⟨by decide, by decide, by decide⟩⟩
